import Mathlib

/-!
Shallow embedding of the `alog` logging library (Go) and verification of the
frozen claims about it.

The embedding follows the source files of the repository:
`alog_console.go` (console sink, `Log` facade, levels) and the file-sink /
worker part (fileLogger, rotation, background writer).  Time is modelled as
`Int` nanoseconds since the Unix epoch (Go `time.Time.UnixNano`), durations as
`Int` nanoseconds (Go `time.Duration`).  I/O performed by the worker (stat,
rotation, Fprint) is modelled by oracle parameters of type `Except String _`
standing for the result the operating system returns; `panic` in the Go code
becomes the `StepOut.panic` constructor.  Strings produced by
`fmt.Sprintf`-style formatting of the caller's arguments, the formatted
timestamp and the call-site data delivered by `runtime.Caller` are inputs of
the model (`CallCtx`), because they come from outside the code under study.
-/

namespace Alog

/-- Go truncated integer division, the semantics of Go's `/` on `int64`. -/
def goDiv (a b : Int) : Int := Int.tdiv a b

/-- Go truncated remainder, the semantics of Go's `%` on `int64`. -/
def goMod (a b : Int) : Int := Int.tmod a b

/-- `time.Second` in nanoseconds. -/
def nsPerSecond : Int := 1000000000

/-- `time.Minute` in nanoseconds. -/
def nsPerMinute : Int := 60 * nsPerSecond

/-- `time.Hour` in nanoseconds. -/
def nsPerHour : Int := 60 * nsPerMinute

/-- `Level` is `uint16` in Go, with `iota` values UNKNOWN=0 .. FATAL=5. -/
inductive Level where
  | UNKNOWN
  | DEBUG
  | INFO
  | WARN
  | ERROR
  | FATAL
deriving DecidableEq, Repr

/-- The numeric value of a level (the Go `uint16` constant). -/
def Level.toNat : Level → Nat
  | .UNKNOWN => 0
  | .DEBUG => 1
  | .INFO => 2
  | .WARN => 3
  | .ERROR => 4
  | .FATAL => 5

/-- `l2S`: Level to string, `default` branch gives "UNKNOWN". -/
def l2S : Level → String
  | .DEBUG => "DEBUG"
  | .INFO => "INFO"
  | .WARN => "WARN"
  | .ERROR => "ERROR"
  | .FATAL => "FATAL"
  | .UNKNOWN => "UNKNOWN"

/-- Per-character lowering as Go's `strings.ToLower` performs it: the
Unicode simple lowercase mapping.  Besides A–Z → a–z, exactly two code
points have a simple lowercase mapping that lands in ASCII and they are
mapped here explicitly: U+0130 (İ, Latin capital letter I with dot above)
→ U+0069 i, and U+212A (Kelvin sign) → U+006B k.  Every other character
either is fixed by the mapping or is sent to another non-ASCII character;
since `s2L` only ever compares the lowered string with the five pure-ASCII
level names, a non-ASCII character and its non-ASCII lowercase both differ
from every keyword character, so leaving those characters unchanged gives
the same `s2L` verdict as Go on every input, while keeping the definition
structurally evaluable. -/
def charToLowerGo (c : Char) : Char :=
  if c.toNat = 304 then 'i'
  else if c.toNat = 8490 then 'k'
  else Char.toLower c

/-- Go `strings.ToLower`, lowering each character (rune count preserved,
structural, so concrete inputs evaluate). -/
def toLowerGo (s : String) : String :=
  String.mk (s.data.map charToLowerGo)

/-- `s2L`: string to Level.  Lower-cases the input, matches the five valid
names; the default branch returns `(UNKNOWN, err)` — the Bool component is
`true` when the Go version returns a non-nil error. -/
def s2L (str : String) : Level × Bool :=
  let str := toLowerGo str
  if str = "debug" then (Level.DEBUG, false)
  else if str = "info" then (Level.INFO, false)
  else if str = "warn" then (Level.WARN, false)
  else if str = "error" then (Level.ERROR, false)
  else if str = "fatal" then (Level.FATAL, false)
  else (Level.UNKNOWN, true)

/-- Default configuration constants of the Go source. -/
def defaultLevel : Level := Level.DEBUG

/-- Default time format pattern. -/
def defaultTimeFormat : String := "2006-01-02 15:04:05"

/-- Default log directory. -/
def defaultFilePath : String := "./log/"

/-- Default log file name. -/
def defaultFileName : String := "ALog.log"

/-- Default rotation size threshold: `1 << 23` bytes. -/
def defaultMaxFileSize : Int := 8388608

/-- Default channel capacity: 50000. -/
def defaultMaxChanSize : Nat := 50000

/-- Default rotation interval: `time.Hour * 24`. -/
def defaultDuration : Int := 24 * nsPerHour

/-- `logMsg`: the record sent through the channel to the worker. -/
structure logMsg where
  level : Level
  msg : String
  funcName : String
  fileName : String
  timeStamp : String
  line : Int
deriving DecidableEq, Repr

/-- The data a producer call supplies from its environment: the formatted
message (`fmt.Sprintf(format, a...)`), the formatted current time
(`now.Format(timeFormat)`) and the call site from `traceInfo(4)`. -/
structure CallCtx where
  msg : String
  now : String
  fileName : String
  funcName : String
  line : Int
deriving DecidableEq, Repr

/-- `consoleLogger`. -/
structure consoleLogger where
  level : Level
  timeFormat : String
deriving DecidableEq, Repr

/-- `newConsoleLogger`. -/
def newConsoleLogger : consoleLogger :=
  { level := defaultLevel, timeFormat := defaultTimeFormat }

/-- `consoleLogger.enable`: `c.level <= logeLevel` on the `uint16` values. -/
def consoleLogger.enable (c : consoleLogger) (logeLevel : Level) : Bool :=
  c.level.toNat ≤ logeLevel.toNat

/-- The line printed by `consoleLogger.log`:
`"[%s] [%s] [%s:%s:%d] %s\n"` applied to the formatted time, the level,
the caller file name, function name, line and message — file name first. -/
def consoleLine (now : String) (lv : Level) (fileName funcName : String)
    (line : Int) (msg : String) : String :=
  "[" ++ now ++ "] [" ++ l2S lv ++ "] [" ++ fileName ++ ":" ++ funcName ++
    ":" ++ toString line ++ "] " ++ msg ++ "\n"

/-- `consoleLogger.log`: when the level is enabled, print the rendered line
to standard output (modelled as `some line`); otherwise print nothing. -/
def consoleLogger.log (c : consoleLogger) (lv : Level) (ctx : CallCtx) :
    Option String :=
  if c.enable lv then
    some (consoleLine ctx.now lv ctx.fileName ctx.funcName ctx.line ctx.msg)
  else
    none

/-- `fileLogger`.  The Go struct fields are kept; the channel `logChan`
becomes the list of queued records together with its capacity `chanCap`
(fixed to `defaultMaxChanSize` at construction, the buffered-channel size);
`closeChan` becomes the flag `closeSignaled`; the open file handle `fileObj`
is modelled by the `(path, name)` pair it was opened at (and `none` before
`initFile`), plus a `fileClosed` flag for `fileObj.Close()`; `fileLines` is
the content of the active file (a model of the external file the handle
points at, one rendered line per entry); `workerStarted` records that
`initFile` has launched the background goroutine. -/
structure fileLogger where
  level : Level
  timeFormat : String
  filePath : String
  fileName : String
  logChan : List logMsg
  chanCap : Nat
  closeSignaled : Bool
  fileClosed : Bool
  fileObj : Option (String × String)
  splitMode : Int
  maxFileSize : Int
  duration : Int
  startTime : Int
  fileLines : List String
  workerStarted : Bool
deriving DecidableEq, Repr

/-- The `int16` rotation-mode constants (`iota`). -/
def SplitNone : Int := 0

/-- Rotate by size. -/
def SplitBaseOnSize : Int := 1

/-- Rotate by time. -/
def SplitBaseOnTime : Int := 2

/-- `initFile`: joins path and name, creates the directory, opens the file in
append mode and starts the background goroutine.  The success path is
modelled; in the Go source a directory-creation or open failure panics
(fatal startup error), which no claim under study exercises. -/
def initFile (f : fileLogger) : fileLogger :=
  { f with fileObj := some (f.filePath, f.fileName), workerStarted := true }

/-- `newFileLogger`: the default configuration, with the BY_TIME anchor
`startTime = now - (now.UnixNano() % defaultDuration)`, then `initFile`. -/
def newFileLogger (now : Int) : fileLogger :=
  let st := now - goMod now defaultDuration
  initFile
    { level := defaultLevel
      timeFormat := defaultTimeFormat
      filePath := defaultFilePath
      fileName := defaultFileName
      logChan := []
      chanCap := defaultMaxChanSize
      closeSignaled := false
      fileClosed := false
      fileObj := none
      splitMode := SplitNone
      maxFileSize := defaultMaxFileSize
      duration := defaultDuration
      startTime := st
      fileLines := []
      workerStarted := false }

/-- `fileLogger.enable`: `f.level <= lv`. -/
def fileLogger.enable (f : fileLogger) (lv : Level) : Bool :=
  f.level.toNat ≤ lv.toNat

/-- The record `logTmp` built inside `fileLogger.log`. -/
def mkLogMsg (lv : Level) (ctx : CallCtx) : logMsg :=
  { level := lv
    msg := ctx.msg
    funcName := ctx.funcName
    fileName := ctx.fileName
    timeStamp := ctx.now
    line := ctx.line }

/-- The non-blocking send on a Go buffered channel of capacity `cap`
(`select { case ch <- m: ; default: }`): the record is appended when the
buffer has room, silently dropped otherwise.  Total function: the producer
never blocks. -/
def tryEnqueue (cap : Nat) (q : List logMsg) (m : logMsg) : List logMsg :=
  if q.length < cap then q ++ [m] else q

/-- `fileLogger.log`: when enabled, build `logTmp` and attempt the
non-blocking send; otherwise do nothing. -/
def fileLogger.log (f : fileLogger) (lv : Level) (ctx : CallCtx) : fileLogger :=
  if f.enable lv then
    { f with logChan := tryEnqueue f.chanCap f.logChan (mkLogMsg lv ctx) }
  else
    f

/-- `fileLogger.Close`: send on `closeChan` (signal the worker) and close the
file handle. -/
def fileLogger.Close (f : fileLogger) : fileLogger :=
  { f with closeSignaled := true, fileClosed := true }

/-- `Log`: the facade.  `isClose` is the flag consulted by the five log
methods; note that `Log.Close` does not set it (only the signal-handler
goroutine installed by `New` does). -/
structure Log where
  CLogger : Option consoleLogger
  FLogger : Option fileLogger
  isClose : Bool
deriving DecidableEq, Repr

/-- `New` (state part): console logger only, not closed.  `New` also installs
a signal handler modelled by `signalClose` below. -/
def New : Log :=
  { CLogger := some newConsoleLogger, FLogger := none, isClose := false }

/-- `Log.Close`: closes the file logger when present.  It does NOT set
`isClose`. -/
def Log.Close (l : Log) : Log :=
  match l.FLogger with
  | some f => { l with FLogger := some f.Close }
  | none => l

/-- The shutdown sequence run by the goroutine `New` installs on a
termination signal: set `isClose`, (sleep 500ms,) then call `Close`. -/
def signalClose (l : Log) : Log :=
  Log.Close { l with isClose := true }

/-- The shared body of the five `Log` methods at level `lv`: forward to the
file logger when present and not closed, then to the console logger when
present and not closed; the console output (if any) is returned. -/
def Log.logAt (l : Log) (lv : Level) (ctx : CallCtx) : Log × Option String :=
  let l1 :=
    match l.FLogger, l.isClose with
    | some f, false => { l with FLogger := some (f.log lv ctx) }
    | _, _ => l
  let out :=
    match l1.CLogger, l1.isClose with
    | some c, false => c.log lv ctx
    | _, _ => none
  (l1, out)

/-- `Log.Debug`. -/
def Log.Debug (l : Log) (ctx : CallCtx) : Log × Option String :=
  l.logAt Level.DEBUG ctx

/-- `Log.Info`. -/
def Log.Info (l : Log) (ctx : CallCtx) : Log × Option String :=
  l.logAt Level.INFO ctx

/-- `Log.Warn`. -/
def Log.Warn (l : Log) (ctx : CallCtx) : Log × Option String :=
  l.logAt Level.WARN ctx

/-- `Log.Error`. -/
def Log.Error (l : Log) (ctx : CallCtx) : Log × Option String :=
  l.logAt Level.ERROR ctx

/-- `Log.Fatal`. -/
def Log.Fatal (l : Log) (ctx : CallCtx) : Log × Option String :=
  l.logAt Level.FATAL ctx

/-- `SetConsoleMode`. -/
def Log.SetConsoleMode (l : Log) : Log :=
  { l with CLogger := some newConsoleLogger, FLogger := none }

/-- `SetFileMode`: replaces the sinks with a fresh `fileLogger`, whose
construction opens the file at the default path and starts the worker. -/
def Log.SetFileMode (l : Log) (now : Int) : Log :=
  { l with CLogger := none, FLogger := some (newFileLogger now) }

/-- `SetBothMode`. -/
def Log.SetBothMode (l : Log) (now : Int) : Log :=
  { l with CLogger := some newConsoleLogger, FLogger := some (newFileLogger now) }

/-- `SetFilePath`: mutates the stored path field only. -/
def Log.SetFilePath (l : Log) (path : String) : Log :=
  match l.FLogger with
  | some f => { l with FLogger := some { f with filePath := path } }
  | none => l

/-- `SetFileName`: mutates the stored name field only. -/
def Log.SetFileName (l : Log) (name : String) : Log :=
  match l.FLogger with
  | some f => { l with FLogger := some { f with fileName := name } }
  | none => l

/-- `SetLevel`: parse the string, assign the result to each active sink's
level field, and only then check the parse error and panic on it.  The Bool
component is `true` when the Go code panics; the `Log` component is the state
the panic leaves behind. -/
def Log.SetLevel (l : Log) (str : String) : Log × Bool :=
  let p := s2L str
  let l1 :=
    { l with
        CLogger := l.CLogger.map (fun c => { c with level := p.1 })
        FLogger := l.FLogger.map (fun f => { f with level := p.1 }) }
  (l1, p.2)

/-- `SetSplitDuration`: `os.Exit(1)` on a duration below ten minutes
(modelled as `Except.error`); otherwise store the duration and re-anchor
`startTime = now - (now.UnixNano() % duration)` when a file logger is
active. -/
def Log.SetSplitDuration (l : Log) (now duration : Int) : Except String Log :=
  if duration < 10 * nsPerMinute then
    Except.error "SplitDuration must be at least 10 minutes"
  else
    Except.ok
      (match l.FLogger with
       | some f =>
           { l with
               FLogger := some
                 { f with
                     duration := duration
                     startTime := now - goMod now duration } }
       | none => l)

/-- The line `writeIntoFile` renders:
`"[%s] [%s] [%s:%s:%d] %s\n"` applied to `logTmp.timeStamp`,
`l2S(logTmp.level)`, `logTmp.funcName`, `logTmp.fileName`, `logTmp.line`,
`logTmp.msg` — that is, the FUNCTION name comes before the file name in the
rendered call-site segment, unlike the console sink. -/
def fileLine (m : logMsg) : String :=
  "[" ++ m.timeStamp ++ "] [" ++ l2S m.level ++ "] [" ++ m.funcName ++ ":" ++
    m.fileName ++ ":" ++ toString m.line ++ "] " ++ m.msg ++ "\n"

/-- The outcome of one worker computation: either a new state together with
the number of rotations performed, or a `panic(err)` that terminates the
worker goroutine. -/
inductive StepOut where
  | ok (f : fileLogger) (rotations : Nat)
  | panic (e : String)
deriving DecidableEq, Repr

/-- `checkSize`: stat the file; on a stat error print a message and return
`false`; otherwise test `fileInfo.Size() >= f.maxFileSize`.  The stat result
is an oracle argument. -/
def checkSize (f : fileLogger) (statRes : Except String Int) : Bool :=
  match statRes with
  | .error _ => false
  | .ok size => f.maxFileSize ≤ size

/-- `checkTime`: `nowTime.Sub(f.startTime) >= f.duration`. -/
def checkTime (f : fileLogger) (nowTime : Int) : Bool :=
  f.duration ≤ nowTime - f.startTime

/-- The state effect of a successful `splitFile`: close the old handle,
rename it away, open a fresh (empty) file at the same joined path
(`path.Join(f.filePath, fileInfo.Name())`). -/
def rotateFile (f : fileLogger) : fileLogger :=
  let baseName :=
    match f.fileObj with
    | some pn => pn.2
    | none => f.fileName
  { f with fileObj := some (f.filePath, baseName), fileLines := [] }

/-- `splitFileByTime`: in BY_TIME mode, when `checkTime` fires, call
`splitFile`, recompute `startTime` (the `subTime`-based value is computed and
then unconditionally overwritten by `f.startTime = logTime`), panic when
`splitFile` returned an error, else install the new file.  `rotRes` is the
oracle for the I/O performed by `splitFile`. -/
def splitFileByTime (rotRes : Except String Unit) (f : fileLogger)
    (logTime : Int) : StepOut :=
  if f.splitMode = SplitBaseOnTime ∧ checkTime f logTime then
    let subTime := goMod logTime f.duration
    let _startTimeDead :=
      if goDiv subTime nsPerSecond = 0 then logTime else logTime + subTime
    let f1 := { f with startTime := logTime }
    match rotRes with
    | .error e => .panic e
    | .ok _ => .ok (rotateFile f1) 1
  else
    .ok f 0

/-- `writeIntoFile`: parse the record's own timestamp back out of its
formatted string (`time.ParseInLocation`, error discarded — `parse` is the
oracle standing for it), run the time-rotation check, then render the line
and `fmt.Fprint` it to the active file with the write error discarded
(`writeRes` is the oracle for that write; on failure nothing lands in the
file and the worker does not even look at the error). -/
def writeIntoFile (parse : String → Int) (rotRes writeRes : Except String Unit)
    (f : fileLogger) (m : logMsg) : StepOut :=
  match splitFileByTime rotRes f (parse m.timeStamp) with
  | .panic e => .panic e
  | .ok f1 r =>
      match writeRes with
      | .ok _ => .ok { f1 with fileLines := f1.fileLines ++ [fileLine m] } r
      | .error _ => .ok f1 r

/-- The drain loop entered on the close signal: keep writing queued records
(resetting the one-second idle timer after each) until the timer fires with
the channel empty, then return. -/
def drainLoop (parse : String → Int) (rotRes writeRes : Except String Unit)
    (f : fileLogger) : List logMsg → StepOut
  | [] => .ok f 0
  | m :: rest =>
      match writeIntoFile parse rotRes writeRes f m with
      | .panic e => .panic e
      | .ok f1 r =>
          match drainLoop parse rotRes writeRes f1 rest with
          | .panic e => .panic e
          | .ok f2 r2 => .ok f2 (r + r2)

/-- What the worker's `select` observes in one iteration: the close signal
(with the records it will drain before the idle timer fires), one queued
record, or an empty channel (the `default` branch sleeps 500ms). -/
inductive WorkerEvent where
  | closeSignal (pending : List logMsg)
  | record (m : logMsg)
  | idle
deriving Repr

/-- The `select` body of `writeLogBackground`. -/
def handleEvent (parse : String → Int) (rotRes writeRes : Except String Unit)
    (f : fileLogger) : WorkerEvent → StepOut
  | .closeSignal pending => drainLoop parse rotRes writeRes f pending
  | .record m => writeIntoFile parse rotRes writeRes f m
  | .idle => .ok f 0

/-- One iteration of the `writeLogBackground` loop: first, and only here, the
size-rotation check (`splitMode == SplitBaseOnSize && checkSize`), with
`panic(err)` when `splitFile` fails; then the `select` over close signal /
record / default. -/
def writeLogBackgroundIter (parse : String → Int)
    (rotRes writeRes : Except String Unit) (f : fileLogger)
    (statRes : Except String Int) (ev : WorkerEvent) : StepOut :=
  if f.splitMode = SplitBaseOnSize ∧ checkSize f statRes then
    match rotRes with
    | .error e => .panic e
    | .ok _ =>
        match handleEvent parse rotRes writeRes (rotateFile f) ev with
        | .panic e => .panic e
        | .ok f2 r => .ok f2 (r + 1)
  else
    handleEvent parse rotRes writeRes f ev

/-! ## Sample inputs used by concrete theorems and witnesses -/

/-- A sample producer call context. -/
def ctx0 : CallCtx :=
  { msg := "hello"
    now := "2022-03-25 20:24:24"
    fileName := "main.go"
    funcName := "main"
    line := 10 }

/-- The record that call context produces at level DEBUG. -/
def msg0 : logMsg := mkLogMsg Level.DEBUG ctx0

/-- A freshly constructed file logger (at `now = 0`). -/
def fl0 : fileLogger := newFileLogger 0

/-- A file logger in BY_SIZE mode with a 5-byte threshold. -/
def fSize : fileLogger :=
  { fl0 with splitMode := SplitBaseOnSize, maxFileSize := 5 }

/-! ## Claims -/

/-- C1: the claim states the file sink renders
`"[{timestamp}] [{LEVEL}] [{file}:{func}:{line}] {message}\n"`, the file name
before the function name, the same order as the console sink.  The code does
not: `writeIntoFile` passes `logTmp.funcName` before `logTmp.fileName` to the
format string, so the file sink renders `[{func}:{file}:{line}]`, while the
console sink renders `[{file}:{func}:{line}]`.  At the sample record the two
sinks disagree and the file line is not the claimed one. -/
theorem C1_fileSink_swaps_file_and_func :
    fileLine msg0 =
      "[2022-03-25 20:24:24] [DEBUG] [main:main.go:10] hello\n" ∧
    consoleLogger.log { level := Level.DEBUG, timeFormat := defaultTimeFormat }
        Level.DEBUG ctx0 =
      some "[2022-03-25 20:24:24] [DEBUG] [main.go:main:10] hello\n" ∧
    fileLine msg0 ≠
      "[2022-03-25 20:24:24] [DEBUG] [main.go:main:10] hello\n" := by
  refine ⟨rfl, rfl, ?_⟩
  decide

/-- C8: for levels L1 < L2 and sinks configured at minimum level L2, the
L1-level call produces no console output and leaves the file logger (in
particular its queue) unchanged. -/
theorem C8_level_filter (lv1 lv2 : Level) (tf : String) (ctx : CallCtx)
    (f : fileLogger) (h : lv1.toNat < lv2.toNat) (hf : f.level = lv2) :
    consoleLogger.log { level := lv2, timeFormat := tf } lv1 ctx = none ∧
    fileLogger.log f lv1 ctx = f := by
  have hc : consoleLogger.enable { level := lv2, timeFormat := tf } lv1 = false := by
    simp only [consoleLogger.enable, decide_eq_false_iff_not]
    omega
  have hfe : f.enable lv1 = false := by
    simp only [fileLogger.enable, hf, decide_eq_false_iff_not]
    omega
  constructor
  · simp [consoleLogger.log, hc]
  · simp [fileLogger.log, hfe]

/-- Witness for C8 at L1 = DEBUG, L2 = INFO. -/
theorem C8_level_filter_witness :
    consoleLogger.log { level := Level.INFO, timeFormat := defaultTimeFormat }
        Level.DEBUG ctx0 = none ∧
    fileLogger.log { fl0 with level := Level.INFO } Level.DEBUG ctx0 =
      { fl0 with level := Level.INFO } :=
  C8_level_filter Level.DEBUG Level.INFO defaultTimeFormat ctx0
    { fl0 with level := Level.INFO } (by decide) rfl

/-- C10: `SetFileMode` (and `SetBothMode`) immediately opens the log file at
the default path `./log/` + `ALog.log` and starts the worker; a later
`SetFilePath`/`SetFileName` mutates only the stored path fields, while the
already-open handle (`fileObj`) still points at the default location. -/
theorem C10_setFileMode_opens_default (l : Log) (now : Int) (p n : String) :
    ((l.SetFileMode now).FLogger.map (fun f => f.fileObj)) =
      some (some (defaultFilePath, defaultFileName)) ∧
    ((l.SetFileMode now).FLogger.map (fun f => f.workerStarted)) = some true ∧
    ((((l.SetFileMode now).SetFilePath p).SetFileName n).FLogger.map
        (fun f => f.fileObj)) =
      some (some (defaultFilePath, defaultFileName)) ∧
    ((((l.SetFileMode now).SetFilePath p).SetFileName n).FLogger.map
        (fun f => f.workerStarted)) = some true ∧
    ((((l.SetFileMode now).SetFilePath p).SetFileName n).FLogger.map
        (fun f => f.filePath)) = some p ∧
    ((((l.SetFileMode now).SetFilePath p).SetFileName n).FLogger.map
        (fun f => f.fileName)) = some n ∧
    ((l.SetBothMode now).FLogger.map (fun f => f.fileObj)) =
      some (some (defaultFilePath, defaultFileName)) := by
  exact ⟨rfl, rfl, rfl, rfl, rfl, rfl, rfl⟩

/-- An invalid level string parses to `(UNKNOWN, error)`. -/
lemma s2L_invalid (str : String)
    (h : toLowerGo str ∉ ["debug", "info", "warn", "error", "fatal"]) :
    s2L str = (Level.UNKNOWN, true) := by
  have h1 : ¬(toLowerGo str = "debug") := fun e => h (by simp [e])
  have h2 : ¬(toLowerGo str = "info") := fun e => h (by simp [e])
  have h3 : ¬(toLowerGo str = "warn") := fun e => h (by simp [e])
  have h4 : ¬(toLowerGo str = "error") := fun e => h (by simp [e])
  have h5 : ¬(toLowerGo str = "fatal") := fun e => h (by simp [e])
  simp [s2L, h1, h2, h3, h4, h5]

/-- C9: `SetLevel` with a string that is not one of
debug/info/warn/error/fatal in any casing assigns UNKNOWN (numeric value 0,
strictly below DEBUG, which makes `enable` accept every level) to each active
sink's level field before panicking, so the failed call leaves the level
state mutated. -/
theorem C9_setLevel_mutates_before_panic (l : Log) (str : String)
    (h : toLowerGo str ∉ ["debug", "info", "warn", "error", "fatal"]) :
    (l.SetLevel str).2 = true ∧
    (l.SetLevel str).1.CLogger =
      l.CLogger.map (fun c => { c with level := Level.UNKNOWN }) ∧
    (l.SetLevel str).1.FLogger =
      l.FLogger.map (fun f => { f with level := Level.UNKNOWN }) ∧
    Level.UNKNOWN.toNat = 0 ∧
    Level.UNKNOWN.toNat < Level.DEBUG.toNat ∧
    (∀ (c : consoleLogger) (lv : Level), c.level = Level.UNKNOWN →
      c.enable lv = true) ∧
    (∀ (f : fileLogger) (lv : Level), f.level = Level.UNKNOWN →
      f.enable lv = true) := by
  have hs := s2L_invalid str h
  refine ⟨?_, ?_, ?_, rfl, by decide, ?_, ?_⟩
  · simp [Log.SetLevel, hs]
  · simp [Log.SetLevel, hs]
  · simp [Log.SetLevel, hs]
  · intro c lv hc
    simp [consoleLogger.enable, hc, Level.toNat]
  · intro f lv hf
    simp [fileLogger.enable, hf, Level.toNat]

/-- Witness for C9 at the invalid string "verbose" on a logger with both
sinks active. -/
theorem C9_setLevel_mutates_before_panic_witness :
    ((Log.mk (some newConsoleLogger) (some fl0) false).SetLevel "verbose").2 = true ∧
    ((Log.mk (some newConsoleLogger) (some fl0) false).SetLevel "verbose").1.CLogger =
      (some newConsoleLogger).map (fun c => { c with level := Level.UNKNOWN }) ∧
    ((Log.mk (some newConsoleLogger) (some fl0) false).SetLevel "verbose").1.FLogger =
      (some fl0).map (fun f => { f with level := Level.UNKNOWN }) ∧
    Level.UNKNOWN.toNat = 0 ∧
    Level.UNKNOWN.toNat < Level.DEBUG.toNat ∧
    (∀ (c : consoleLogger) (lv : Level), c.level = Level.UNKNOWN →
      c.enable lv = true) ∧
    (∀ (f : fileLogger) (lv : Level), f.level = Level.UNKNOWN →
      f.enable lv = true) :=
  C9_setLevel_mutates_before_panic (Log.mk (some newConsoleLogger) (some fl0) false)
    "verbose" (by decide)

/-- A `Log` whose `isClose` flag is set dispatches to no sink. -/
lemma logAt_closed (l : Log) (lv : Level) (ctx : CallCtx)
    (h : l.isClose = true) : l.logAt lv ctx = (l, none) := by
  rcases l with ⟨c, f, ic⟩
  simp only at h
  subst h
  cases c <;> cases f <;> rfl

/-- `Log.Close` preserves `isClose` and closes the file handle. -/
lemma close_isClose (l : Log) : (Log.Close l).isClose = l.isClose := by
  rcases l with ⟨c, f, ic⟩
  cases f <;> rfl

/-- C2 (amended): the shutdown sequence that `New`'s signal handler runs —
set `isClose`, then call `Close` — closes the file handle, and every
subsequent log method returns the state unchanged with no console output and
nothing enqueued.  (Calling `Close` alone does not set `isClose`; see the
counterexample.) -/
theorem C2_signalClose_noop (l : Log) (ctx : CallCtx) :
    (signalClose l).isClose = true ∧
    ((signalClose l).FLogger.map (fun f => f.fileClosed)) =
      (l.FLogger.map (fun _ => true)) ∧
    Log.Debug (signalClose l) ctx = (signalClose l, none) ∧
    Log.Info (signalClose l) ctx = (signalClose l, none) ∧
    Log.Warn (signalClose l) ctx = (signalClose l, none) ∧
    Log.Error (signalClose l) ctx = (signalClose l, none) ∧
    Log.Fatal (signalClose l) ctx = (signalClose l, none) := by
  have hic : (signalClose l).isClose = true := by
    unfold signalClose
    rw [close_isClose]
  refine ⟨hic, ?_, ?_, ?_, ?_, ?_, ?_⟩
  · rcases l with ⟨c, f, ic⟩
    cases f <;> rfl
  · exact logAt_closed _ _ _ hic
  · exact logAt_closed _ _ _ hic
  · exact logAt_closed _ _ _ hic
  · exact logAt_closed _ _ _ hic
  · exact logAt_closed _ _ _ hic

/-- A logger with both sinks, used by the C2 counterexample. -/
def lC2 : Log :=
  { CLogger := some newConsoleLogger, FLogger := some fl0, isClose := false }

/-- C2 counterexample: the claim says that after calling `Close` on the
`Log`, every log call is a no-op with nothing enqueued and nothing printed.
In the code `Log.Close` does not set `isClose`, so a `Debug` call after
`Close` still enqueues a record into the (already abandoned) channel and
still prints to the console, even though the file handle is closed. -/
theorem C2_close_alone_not_noop :
    ((Log.Close lC2).FLogger.map (fun f => f.logChan.length)) = some 0 ∧
    ((Log.Close lC2).FLogger.map (fun f => f.fileClosed)) = some true ∧
    (Log.Close lC2).isClose = false ∧
    (((Log.Debug (Log.Close lC2) ctx0).1).FLogger.map
        (fun f => f.logChan.length)) = some 1 ∧
    ((Log.Debug (Log.Close lC2) ctx0).2).isSome = true := by
  exact ⟨rfl, rfl, rfl, rfl, rfl⟩

/-- C7: a rotation interval below ten minutes is rejected at configuration
time (the `os.Exit(1)` path, modelled as the error outcome); an interval of
ten minutes or more is accepted and stored in the active file logger,
together with the re-anchored period start
`now - (now.UnixNano() % duration)`. -/
theorem C7_min_split_duration :
    (∀ (l : Log) (now d : Int), d < 10 * nsPerMinute →
      Log.SetSplitDuration l now d =
        Except.error "SplitDuration must be at least 10 minutes") ∧
    (∀ (l : Log) (f : fileLogger) (now d : Int), 10 * nsPerMinute ≤ d →
      l.FLogger = some f →
      Log.SetSplitDuration l now d =
        Except.ok { l with FLogger := some ({ f with duration := d, startTime := now - goMod now d }) }) := by
  constructor
  · intro l now d h
    unfold Log.SetSplitDuration
    rw [if_pos h]
  · intro l f now d h hf
    unfold Log.SetSplitDuration
    rw [if_neg (by omega), hf]

/-- A file-mode logger used by the C7 witness. -/
def lC7 : Log :=
  { CLogger := none, FLogger := some fl0, isClose := false }

/-- Witness for C7: five minutes is rejected; ten minutes is accepted and
stored with the recomputed anchor. -/
theorem C7_min_split_duration_witness :
    Log.SetSplitDuration lC7 1234 (5 * nsPerMinute) =
      Except.error "SplitDuration must be at least 10 minutes" ∧
    Log.SetSplitDuration lC7 1234 (10 * nsPerMinute) =
      Except.ok { lC7 with FLogger := some ({ fl0 with duration := 10 * nsPerMinute, startTime := 1234 - goMod 1234 (10 * nsPerMinute) }) } :=
  ⟨C7_min_split_duration.1 lC7 1234 (5 * nsPerMinute) (by decide),
   C7_min_split_duration.2 lC7 fl0 1234 (10 * nsPerMinute) (by decide) rfl⟩

/-- Folding the non-blocking send over a message list keeps the first
`cap - q.length` of them and drops the rest. -/
lemma tryEnqueue_foldl (cap : Nat) (ms : List logMsg) :
    ∀ q : List logMsg, q.length ≤ cap →
      ms.foldl (tryEnqueue cap) q = q ++ ms.take (cap - q.length) := by
  induction ms with
  | nil => intro q _; simp
  | cons m rest ih =>
      intro q hq
      rw [List.foldl_cons]
      by_cases hlt : q.length < cap
      · have hstep : tryEnqueue cap q m = q ++ [m] := by
          unfold tryEnqueue
          rw [if_pos hlt]
        rw [hstep, ih (q ++ [m]) (by simp; omega)]
        have hn : cap - q.length = (cap - (q ++ [m]).length) + 1 := by
          simp
          omega
        rw [hn]
        simp [List.take_succ_cons]
      · have hq2 : q.length = cap := by omega
        have hstep : tryEnqueue cap q m = q := by
          unfold tryEnqueue
          rw [if_neg hlt]
        rw [hstep, ih q hq]
        simp [hq2]

/-- `fileLogAll`: a sequence of producer `log` calls at one level (the model
of issuing many level-enabled log calls with no consumer draining). -/
def fileLogAll (f : fileLogger) (lv : Level) (cs : List CallCtx) : fileLogger :=
  cs.foldl (fun g c => g.log lv c) f

/-- One enabled `log` call only replaces the queue by the non-blocking send
result. -/
lemma log_enabled_eq (f : fileLogger) (lv : Level) (c : CallCtx)
    (h : f.enable lv = true) :
    f.log lv c = { f with logChan := tryEnqueue f.chanCap f.logChan (mkLogMsg lv c) } := by
  unfold fileLogger.log
  rw [if_pos h]

/-- `fileLogAll` over enabled calls acts on the queue as the fold of the
non-blocking send, and touches neither capacity nor level. -/
lemma fileLogAll_chan (lv : Level) (cs : List CallCtx) :
    ∀ f : fileLogger, f.enable lv = true →
      (fileLogAll f lv cs).logChan =
        (cs.map (mkLogMsg lv)).foldl (tryEnqueue f.chanCap) f.logChan ∧
      (fileLogAll f lv cs).chanCap = f.chanCap := by
  induction cs with
  | nil => intro f _; exact ⟨rfl, rfl⟩
  | cons c rest ih =>
      intro f hf
      have hstep := log_enabled_eq f lv c hf
      have hf2 : (f.log lv c).enable lv = true := by
        rw [hstep]; exact hf
      have := ih (f.log lv c) hf2
      constructor
      · show (fileLogAll (f.log lv c) lv rest).logChan = _
        rw [this.1, hstep]
        simp [List.foldl_cons]
      · show (fileLogAll (f.log lv c) lv rest).chanCap = _
        rw [this.2, hstep]

/-- C5: starting from an empty queue of capacity N, N+k level-enabled log
calls (k > 0) with no consumer running never block (total function), retain
exactly the first N records in the queue, and silently discard exactly k
records; nothing is reported to the caller (`log` returns no error value). -/
theorem C5_nonblocking_enqueue (f : fileLogger) (lv : Level)
    (cs : List CallCtx) (k : Nat) (h0 : f.logChan = [])
    (h1 : f.enable lv = true) (h2 : cs.length = f.chanCap + k)
    (h3 : 0 < k) :
    (fileLogAll f lv cs).logChan = (cs.map (mkLogMsg lv)).take f.chanCap ∧
    (fileLogAll f lv cs).logChan.length = f.chanCap ∧
    cs.length - (fileLogAll f lv cs).logChan.length = k := by
  obtain ⟨hchan, _⟩ := fileLogAll_chan lv cs f h1
  have hfold := tryEnqueue_foldl f.chanCap (cs.map (mkLogMsg lv)) [] (by simp)
  simp only [List.nil_append, List.length_nil, Nat.sub_zero] at hfold
  rw [hchan, h0, hfold]
  refine ⟨rfl, ?_, ?_⟩
  · simp
    omega
  · simp
    omega

/-- The capacity-1 file logger used by the C5 witness. -/
def fC5 : fileLogger := { fl0 with chanCap := 1 }

/-- Witness for C5 at capacity N = 1 with two enqueue attempts (k = 1). -/
theorem C5_nonblocking_enqueue_witness :
    (fileLogAll fC5 Level.DEBUG [ctx0, ctx0]).logChan =
      ([ctx0, ctx0].map (mkLogMsg Level.DEBUG)).take fC5.chanCap ∧
    (fileLogAll fC5 Level.DEBUG [ctx0, ctx0]).logChan.length = fC5.chanCap ∧
    [ctx0, ctx0].length - (fileLogAll fC5 Level.DEBUG [ctx0, ctx0]).logChan.length = 1 :=
  C5_nonblocking_enqueue fC5 Level.DEBUG [ctx0, ctx0] 1 rfl rfl rfl (by decide)

/-- When the BY_TIME condition does not fire, `splitFileByTime` leaves the
state alone and rotates nothing, whatever the rotation I/O would have done. -/
lemma splitFileByTime_no (rotRes : Except String Unit) (f : fileLogger)
    (t : Int) (h : ¬(f.splitMode = SplitBaseOnTime ∧ checkTime f t = true)) :
    splitFileByTime rotRes f t = StepOut.ok f 0 := by
  unfold splitFileByTime
  rw [if_neg h]

/-- When the BY_TIME condition fires and the rotation I/O succeeds,
`splitFileByTime` re-anchors `startTime` to the record's own timestamp and
installs the fresh file. -/
lemma splitFileByTime_yes_ok (f : fileLogger) (t : Int)
    (h : f.splitMode = SplitBaseOnTime ∧ checkTime f t = true) :
    splitFileByTime (Except.ok ()) f t =
      StepOut.ok (rotateFile ({ f with startTime := t })) 1 := by
  unfold splitFileByTime
  rw [if_pos h]

/-- When the BY_TIME condition fires and the rotation I/O fails, the worker
panics with that error. -/
lemma splitFileByTime_yes_err (e : String) (f : fileLogger) (t : Int)
    (h : f.splitMode = SplitBaseOnTime ∧ checkTime f t = true) :
    splitFileByTime (Except.error e) f t = StepOut.panic e := by
  unfold splitFileByTime
  rw [if_pos h]

/-- A BY_TIME file logger with interval 10 ns anchored at 100 ns, used for
claim C4. -/
def fC4 : fileLogger :=
  { fl0 with splitMode := SplitBaseOnTime, duration := 10, startTime := 100 }

/-- C4 counterexample: the claim says every record written to the current
active file in BY_TIME mode satisfies `periodStart ≤ t`.  The code only
checks `t - periodStart >= interval`, so a record whose parsed timestamp
(t = 50) lies before the anchor (periodStart = 100) passes the check without
rotating and is written into the current file, violating the lower bound. -/
theorem C4_lower_bound_cex :
    writeIntoFile (fun _ => 50) (Except.ok ()) (Except.ok ()) fC4 msg0 =
      StepOut.ok ({ fC4 with fileLines := [fileLine msg0] }) 0 ∧
    ¬(fC4.startTime ≤ 50) := by
  exact ⟨rfl, by decide⟩

/-- C4 (amended): in BY_TIME mode with a positive interval, the record
written by `writeIntoFile` always satisfies the upper bound
`t < periodStart + interval` against the anchor in force at the moment of the
write; the lower bound `periodStart ≤ t` holds only under the additional
hypothesis that the record's parsed timestamp is not earlier than the current
anchor — the code never enforces it. -/
theorem C4_time_invariant_amended (f : fileLogger) (m : logMsg)
    (parse : String → Int) (hm : f.splitMode = SplitBaseOnTime)
    (hd : 0 < f.duration) :
    ∃ (f1 : fileLogger) (r : Nat),
      writeIntoFile parse (Except.ok ()) (Except.ok ()) f m = StepOut.ok f1 r ∧
      f1.duration = f.duration ∧
      parse m.timeStamp < f1.startTime + f1.duration ∧
      (f.startTime ≤ parse m.timeStamp → f1.startTime ≤ parse m.timeStamp) := by
  unfold writeIntoFile
  by_cases hc : checkTime f (parse m.timeStamp) = true
  · rw [splitFileByTime_yes_ok f (parse m.timeStamp) ⟨hm, hc⟩]
    refine ⟨_, _, rfl, rfl, ?_, ?_⟩
    · show parse m.timeStamp < parse m.timeStamp + f.duration
      omega
    · intro _
      show parse m.timeStamp ≤ parse m.timeStamp
      omega
  · rw [splitFileByTime_no (Except.ok ()) f (parse m.timeStamp) (fun h => hc h.2)]
    simp only [checkTime, decide_eq_true_eq] at hc
    refine ⟨_, _, rfl, rfl, ?_, ?_⟩
    · show parse m.timeStamp < f.startTime + f.duration
      omega
    · intro h
      exact h

/-- Witness for C4 (amended) at the concrete BY_TIME logger and record. -/
theorem C4_time_invariant_amended_witness :
    ∃ (f1 : fileLogger) (r : Nat),
      writeIntoFile (fun _ => 50) (Except.ok ()) (Except.ok ()) fC4 msg0 =
        StepOut.ok f1 r ∧
      f1.duration = fC4.duration ∧
      (50 : Int) < f1.startTime + f1.duration ∧
      (fC4.startTime ≤ 50 → f1.startTime ≤ 50) :=
  C4_time_invariant_amended fC4 msg0 (fun _ => 50) rfl (by decide)

/-- In BY_SIZE mode the write path never rotates: `splitFileByTime` is a
no-op (its mode test fails), so `writeIntoFile` reports zero rotations and
preserves the mode, whatever the rotation and write I/O oracles say. -/
lemma writeIntoFile_size_mode (parse : String → Int)
    (rotRes writeRes : Except String Unit) (f : fileLogger) (m : logMsg)
    (hm : f.splitMode = SplitBaseOnSize) :
    ∃ f1, writeIntoFile parse rotRes writeRes f m = StepOut.ok f1 0 ∧
      f1.splitMode = SplitBaseOnSize := by
  unfold writeIntoFile
  rw [splitFileByTime_no rotRes f (parse m.timeStamp)
    (fun h => by rw [hm] at h; exact absurd h.1 (by decide))]
  cases writeRes with
  | ok _ => exact ⟨_, rfl, hm⟩
  | error _ => exact ⟨f, rfl, hm⟩

/-- In BY_SIZE mode the drain loop writes every pending record without a
single rotation and preserves the mode. -/
lemma drainLoop_size_mode (parse : String → Int)
    (rotRes writeRes : Except String Unit) (ms : List logMsg) :
    ∀ f : fileLogger, f.splitMode = SplitBaseOnSize →
      ∃ f2, drainLoop parse rotRes writeRes f ms = StepOut.ok f2 0 ∧
        f2.splitMode = SplitBaseOnSize := by
  induction ms with
  | nil => intro f hm; exact ⟨f, rfl, hm⟩
  | cons m rest ih =>
      intro f hm
      obtain ⟨f1, e1, h1⟩ := writeIntoFile_size_mode parse rotRes writeRes f m hm
      obtain ⟨f2, e2, h2⟩ := ih f1 h1
      refine ⟨f2, ?_, h2⟩
      unfold drainLoop
      simp [e1, e2]

/-- In BY_SIZE mode no branch of the worker's `select` performs a
rotation. -/
lemma handleEvent_size_mode (parse : String → Int)
    (rotRes writeRes : Except String Unit) (f : fileLogger) (ev : WorkerEvent)
    (hm : f.splitMode = SplitBaseOnSize) :
    ∃ f2, handleEvent parse rotRes writeRes f ev = StepOut.ok f2 0 ∧
      f2.splitMode = SplitBaseOnSize := by
  cases ev with
  | closeSignal pending => exact drainLoop_size_mode parse rotRes writeRes pending f hm
  | record m => exact writeIntoFile_size_mode parse rotRes writeRes f m hm
  | idle => exact ⟨f, rfl, hm⟩

/-- C6: in BY_SIZE mode one worker iteration rotates exactly when the stat
size is at least `maxFileSize`; the check is made once, before the `select`,
and no write performed while handling the event — in particular none of the
writes inside the drain loop — triggers a further rotation, so the iteration
performs one rotation when the threshold was reached and zero otherwise. -/
theorem C6_size_rotation_once_per_iteration (f : fileLogger) (size : Int)
    (ev : WorkerEvent) (parse : String → Int)
    (hm : f.splitMode = SplitBaseOnSize) :
    ∃ f2, writeLogBackgroundIter parse (Except.ok ()) (Except.ok ()) f
        (Except.ok size) ev =
      StepOut.ok f2 (if f.maxFileSize ≤ size then 1 else 0) := by
  unfold writeLogBackgroundIter
  by_cases hs : f.maxFileSize ≤ size
  · have hcs : checkSize f (Except.ok size) = true := by
      simp [checkSize, hs]
    rw [if_pos ⟨hm, hcs⟩, if_pos hs]
    obtain ⟨f2, e2, _⟩ := handleEvent_size_mode parse (Except.ok ())
      (Except.ok ()) (rotateFile f) ev (by simpa [rotateFile] using hm)
    rw [e2]
    exact ⟨f2, rfl⟩
  · have hcs : checkSize f (Except.ok size) = false := by
      simp [checkSize, hs]
    rw [if_neg (fun h => by rw [hcs] at h; exact absurd h.2 (by decide)),
      if_neg hs]
    obtain ⟨f2, e2, _⟩ := handleEvent_size_mode parse (Except.ok ())
      (Except.ok ()) f ev hm
    rw [e2]
    exact ⟨f2, rfl⟩

/-- Witness for C6: a BY_SIZE logger over its 5-byte threshold (size 7)
draining two records rotates exactly once; the same logger under the
threshold (size 3) rotates zero times. -/
theorem C6_size_rotation_once_per_iteration_witness :
    (∃ f2, writeLogBackgroundIter (fun _ => 0) (Except.ok ()) (Except.ok ())
        fSize (Except.ok 7) (WorkerEvent.closeSignal [msg0, msg0]) =
      StepOut.ok f2 (if fSize.maxFileSize ≤ 7 then 1 else 0)) ∧
    (∃ f2, writeLogBackgroundIter (fun _ => 0) (Except.ok ()) (Except.ok ())
        fSize (Except.ok 3) (WorkerEvent.closeSignal [msg0, msg0]) =
      StepOut.ok f2 (if fSize.maxFileSize ≤ 3 then 1 else 0)) :=
  ⟨C6_size_rotation_once_per_iteration fSize 7
      (WorkerEvent.closeSignal [msg0, msg0]) (fun _ => 0) rfl,
   C6_size_rotation_once_per_iteration fSize 3
      (WorkerEvent.closeSignal [msg0, msg0]) (fun _ => 0) rfl⟩

/-- With a succeeding rotation, `writeIntoFile` never panics, whatever the
outcome of the `Fprint` write (its error is discarded). -/
lemma writeIntoFile_rotation_ok (parse : String → Int)
    (writeRes : Except String Unit) (f : fileLogger) (m : logMsg) :
    ∃ f1 r, writeIntoFile parse (Except.ok ()) writeRes f m =
      StepOut.ok f1 r := by
  unfold writeIntoFile
  by_cases hc : (f.splitMode = SplitBaseOnTime ∧
      checkTime f (parse m.timeStamp) = true)
  · rw [splitFileByTime_yes_ok f (parse m.timeStamp) hc]
    cases writeRes with
    | ok _ => exact ⟨_, _, rfl⟩
    | error _ => exact ⟨_, _, rfl⟩
  · rw [splitFileByTime_no (Except.ok ()) f (parse m.timeStamp) hc]
    cases writeRes with
    | ok _ => exact ⟨_, _, rfl⟩
    | error _ => exact ⟨f, _, rfl⟩

/-- With a succeeding rotation, the drain loop never panics. -/
lemma drainLoop_rotation_ok (parse : String → Int)
    (writeRes : Except String Unit) (ms : List logMsg) :
    ∀ f : fileLogger, ∃ f2 r,
      drainLoop parse (Except.ok ()) writeRes f ms = StepOut.ok f2 r := by
  induction ms with
  | nil => intro f; exact ⟨f, 0, rfl⟩
  | cons m rest ih =>
      intro f
      obtain ⟨f1, r1, e1⟩ := writeIntoFile_rotation_ok parse writeRes f m
      obtain ⟨f2, r2, e2⟩ := ih f1
      refine ⟨f2, r1 + r2, ?_⟩
      unfold drainLoop
      simp [e1, e2]

/-- With a succeeding rotation, no `select` branch panics. -/
lemma handleEvent_rotation_ok (parse : String → Int)
    (writeRes : Except String Unit) (f : fileLogger) (ev : WorkerEvent) :
    ∃ f2 r, handleEvent parse (Except.ok ()) writeRes f ev =
      StepOut.ok f2 r := by
  cases ev with
  | closeSignal pending => exact drainLoop_rotation_ok parse writeRes pending f
  | record m => exact writeIntoFile_rotation_ok parse writeRes f m
  | idle => exact ⟨f, 0, rfl⟩

/-- C3 (amended): after startup the worker tolerates stat errors during the
size check (reported and treated as "do not rotate") and write errors during
`Fprint` (silently discarded), and keeps running on the existing file handle;
but an I/O error in the rotation itself (`splitFile`), size- or
time-triggered, makes the worker `panic(err)` — it terminates instead of
recovering locally. -/
theorem C3_io_error_handling_amended :
    (∀ (parse : String → Int) (writeRes : Except String Unit)
        (f : fileLogger) (statRes : Except String Int) (ev : WorkerEvent),
      ∃ f2 r, writeLogBackgroundIter parse (Except.ok ()) writeRes f statRes ev =
        StepOut.ok f2 r) ∧
    (∀ (parse : String → Int) (writeRes : Except String Unit)
        (f : fileLogger) (size : Int) (ev : WorkerEvent) (e : String),
      f.splitMode = SplitBaseOnSize → f.maxFileSize ≤ size →
      writeLogBackgroundIter parse (Except.error e) writeRes f
          (Except.ok size) ev = StepOut.panic e) ∧
    (∀ (parse : String → Int) (writeRes : Except String Unit)
        (f : fileLogger) (m : logMsg) (e : String),
      f.splitMode = SplitBaseOnTime →
      checkTime f (parse m.timeStamp) = true →
      writeIntoFile parse (Except.error e) writeRes f m =
        StepOut.panic e) := by
  refine ⟨?_, ?_, ?_⟩
  · intro parse writeRes f statRes ev
    unfold writeLogBackgroundIter
    by_cases hsc : (f.splitMode = SplitBaseOnSize ∧
        checkSize f statRes = true)
    · rw [if_pos hsc]
      obtain ⟨f2, r, e2⟩ := handleEvent_rotation_ok parse writeRes
        (rotateFile f) ev
      rw [e2]
      exact ⟨f2, r + 1, rfl⟩
    · rw [if_neg hsc]
      exact handleEvent_rotation_ok parse writeRes f ev
  · intro parse writeRes f size ev e hm hs
    unfold writeLogBackgroundIter
    rw [if_pos ⟨hm, by simp [checkSize, hs]⟩]
  · intro parse writeRes f m e hm hc
    unfold writeIntoFile
    rw [splitFileByTime_yes_err e f (parse m.timeStamp) ⟨hm, hc⟩]

/-- C3 counterexample: the claim says the worker recovers from every
post-startup rotation I/O failure and never terminates.  With the BY_SIZE
logger over its threshold and a failing rotation, one worker iteration ends
in `panic("disk full")`: the goroutine dies (and an unrecovered panic aborts
the Go process). -/
theorem C3_rotation_error_terminates_cex :
    writeLogBackgroundIter (fun _ => 0) (Except.error "disk full")
        (Except.ok ()) fSize (Except.ok 7) WorkerEvent.idle =
      StepOut.panic "disk full" := by
  rfl

/-- Witness for C3 (amended): a stat error plus a write error do not panic
the worker; a failing size-triggered rotation and a failing time-triggered
rotation both panic. -/
theorem C3_io_error_handling_amended_witness :
    (∃ f2 r, writeLogBackgroundIter (fun _ => 0) (Except.ok ())
        (Except.error "EIO") fSize (Except.error "stat failed")
        (WorkerEvent.record msg0) = StepOut.ok f2 r) ∧
    writeLogBackgroundIter (fun _ => 0) (Except.error "EIO") (Except.ok ())
        fSize (Except.ok 7) WorkerEvent.idle = StepOut.panic "EIO" ∧
    writeIntoFile (fun _ => 500) (Except.error "EIO") (Except.ok ()) fC4 msg0 =
      StepOut.panic "EIO" :=
  ⟨C3_io_error_handling_amended.1 (fun _ => 0) (Except.error "EIO") fSize
      (Except.error "stat failed") (WorkerEvent.record msg0),
   C3_io_error_handling_amended.2.1 (fun _ => 0) (Except.ok ()) fSize 7
      WorkerEvent.idle "EIO" rfl (by decide),
   C3_io_error_handling_amended.2.2 (fun _ => 500) (Except.ok ()) fC4 msg0
      "EIO" rfl (by decide)⟩

end Alog
